import Mathlib

/-!
Verification of the note-selection core of `simple_MPU6050_and_Buzzer.cpp`
(LED-Movimeto repository).

The core maps two motion magnitudes (`totalAcc`, `totalSpin`, floats in the
source, modelled as rationals: every claim only compares them against the
constants 0.5, 0.75, 3 and 4, all exactly representable) together with the
previous per-voice state to a new voice state (pitch, octave, duration).

Arduino's `random(a, b)` returns a value in the half-open range `[a, b)`.
We inject the random source as an explicit function `rand : Nat → Nat → Nat`
whose application `rand a b` stands for one call `random(a, b)`; the
predicate `RandValid` captures the range contract of the Arduino generator.
-/

/-- A voice's state: `struct note { int pitch; int octave; int duration; }`. -/
structure note where
  pitch : Int
  octave : Int
  duration : Int
deriving Repr, DecidableEq

/-- The range contract of Arduino `random(a, b)`: the result lies in `[a, b)`
whenever the range is nonempty. -/
def RandValid (rand : Nat → Nat → Nat) : Prop :=
  ∀ a b : Nat, a < b → a ≤ rand a b ∧ rand a b < b

/-- A concrete valid random source: always returns the lower bound. -/
def randLo : Nat → Nat → Nat := fun a _ => a

/-- A concrete valid random source: always returns the upper bound minus one. -/
def randHi : Nat → Nat → Nat := fun _ b => b - 1

theorem randLo_valid : RandValid randLo := fun _ _ h => ⟨Nat.le_refl _, h⟩

theorem randHi_valid : RandValid randHi := fun a b h => by
  unfold randHi; omega

/-- `int noteDuration[] = {125, ..., 1500};` — the 20-entry duration table. -/
def noteDuration : List Int :=
  [125, 125, 125, 125, 125, 125, 125, 125, 250, 250, 250, 250,
   500, 500, 500, 500, 1000, 1000, 1000, 1500]

/-- The table index drawn by `defineNoteDuration` for a given acceleration
magnitude: `random(18,19)`, `random(10,18)` or `random(0,10)` depending on
the band `totalAcc` falls in. -/
def defineNoteDurationIndex (totalAcc : ℚ) (rand : Nat → Nat → Nat) : Nat :=
  if totalAcc > 1/2 ∧ totalAcc < 3/4 then rand 18 19
  else if totalAcc > 3/4 ∧ totalAcc < 3 then rand 10 18
  else rand 0 10

/-- `int defineNoteDuration(float totalAcc)` — looks the drawn index up in
the duration table. -/
def defineNoteDuration (totalAcc : ℚ) (rand : Nat → Nat → Nat) : Int :=
  noteDuration.getD (defineNoteDurationIndex totalAcc rand) 0

/-- The sequential wrap in `defineMelodyNote`:
`if (octave < 0) octave = 5; if (octave > 5) octave = 2;`. -/
def melodyOctaveWrap (o : Int) : Int :=
  let o := if o < 0 then 5 else o
  if o > 5 then 2 else o

/-- The melody octave walk of `defineMelodyNote`: step down when
`totalAcc < 3`, up when `totalAcc >= 3`, then wrap. -/
def melodyOctaveWalk (o : Int) (totalAcc : ℚ) : Int :=
  let o := if totalAcc < 3 then o - 1 else o
  let o := if totalAcc ≥ 3 then o + 1 else o
  melodyOctaveWrap o

/-- The sequential wrap in `defineBassNote`:
`if (octave < 0) octave = 2; if (octave > 5) octave = 0;`. -/
def bassOctaveWrap (o : Int) : Int :=
  let o := if o < 0 then 2 else o
  if o > 5 then 0 else o

/-- The bass octave walk of `defineBassNote`: step down when
`totalSpin < 3`, up when `totalSpin >= 3`, then wrap. -/
def bassOctaveWalk (o : Int) (totalSpin : ℚ) : Int :=
  let o := if totalSpin < 3 then o - 1 else o
  let o := if totalSpin ≥ 3 then o + 1 else o
  bassOctaveWrap o

/-- The clamp loop `while (pitch > 6) pitch -= 3;`. -/
def clampHigh (p : Int) : Int :=
  if p > 6 then clampHigh (p - 3) else p
termination_by (p - 6).toNat
decreasing_by omega

/-- The melody pitch walk and clamp of `defineMelodyNote`, with the value of
the (at most one effective) `random(0, 6)` draw passed as `r`:
subtract `r` when `totalSpin < 3`, add `r` when `totalSpin > 4`, fold a
negative result through zero with `abs`, then clamp with the while-loop. -/
def melodyPitchStep (p : Int) (totalSpin : ℚ) (r : Int) : Int :=
  let p := if totalSpin < 3 then p - r else p
  let p := if totalSpin > 4 then p + r else p
  let p := if p < 0 then |p| else p
  clampHigh p

/-- `void defineMelodyNote(float totalAcc, float totalSpin)`, with the
previous state and the random source made explicit: octave walk, pitch walk
with clamp, silence override, duration selection. `randP` serves the
`random(0, 6)` call of the pitch walk, `randD` the draw inside
`defineNoteDuration`. -/
def defineMelodyNote (prev : note) (totalAcc totalSpin : ℚ)
    (randP randD : Nat → Nat → Nat) : note :=
  let octave := melodyOctaveWalk prev.octave totalAcc
  let pitch := melodyPitchStep prev.pitch totalSpin (randP 0 6)
  let pitch := if totalAcc < 1/2 ∨ totalSpin < 1/2 then 7 else pitch
  { pitch := pitch, octave := octave,
    duration := defineNoteDuration totalAcc randD }

/-- `int harmonics[8][3]` from `defineBassNote`. -/
def harmonics : List (List Int) :=
  [[2, 4, 6], [3, 5, 0], [4, 6, 1],
   [5, 0, 2], [6, 1, 3], [0, 2, 4],
   [1, 3, 5], [7, 7, 7]]

/-- `harmonics[row][col]` lookup (row is the melody pitch, an `int`). -/
def harmonicsAt (row : Int) (col : Nat) : Int :=
  (harmonics.getD row.toNat []).getD col 0

/-- `void defineBassNote(float totalAcc, float totalSpin)`, with the previous
bass state, the just-updated melody pitch and the random source explicit:
octave walk on `totalSpin`, pitch picked as
`harmonics[melodyCurrentNote.pitch][random(0, 2)]`, duration selection.
`randB` serves the `random(0, 2)` call, `randD` the duration draw. -/
def defineBassNote (prev : note) (melodyPitch : Int) (totalAcc totalSpin : ℚ)
    (randB randD : Nat → Nat → Nat) : note :=
  let octave := bassOctaveWalk prev.octave totalSpin
  { pitch := harmonicsAt melodyPitch (randB 0 2), octave := octave,
    duration := defineNoteDuration totalAcc randD }

/-- One cycle of `playNote` at the note-selection level (from the already
reduced magnitudes): melody first, then bass reading the melody's new pitch.
Returns the two new voice states. Each of the four `random` call sites gets
its own injected source. -/
def playNote (melodyPrev bassPrev : note) (totalAcc totalSpin : ℚ)
    (randMP randMD randB randBD : Nat → Nat → Nat) : note × note :=
  let m := defineMelodyNote melodyPrev totalAcc totalSpin randMP randMD
  let b := defineBassNote bassPrev m.pitch totalAcc totalSpin randB randBD
  (m, b)

/-- `struct note melodyCurrentNote = {0, 3, 0};` -/
def melodyInit : note := { pitch := 0, octave := 3, duration := 0 }

/-- `struct note bassCurrentNote = {0, 0, 0};` -/
def bassInit : note := { pitch := 0, octave := 0, duration := 0 }

/-! ## Helper lemmas -/

theorem clampHigh_range (x : Int) (hx : 0 ≤ x) :
    0 ≤ clampHigh x ∧ clampHigh x ≤ 6 := by
  by_cases h : x > 6
  · rw [clampHigh, if_pos h]
    exact clampHigh_range (x - 3) (by omega)
  · rw [clampHigh, if_neg h]
    omega
termination_by (x - 6).toNat
decreasing_by omega

theorem clampHigh_of_le (x : Int) (hx : x ≤ 6) : clampHigh x = x := by
  rw [clampHigh, if_neg (by omega)]

theorem melodyPitchStep_range (p : Int) (ts : ℚ) (r : Int) :
    0 ≤ melodyPitchStep p ts r ∧ melodyPitchStep p ts r ≤ 6 := by
  unfold melodyPitchStep
  apply clampHigh_range
  split_ifs <;> first | exact abs_nonneg _ | omega

theorem harmonicsAt_mem (m : Int) (c : Nat) (hm0 : 0 ≤ m) (hm7 : m ≤ 7)
    (hc : c < 3) : harmonicsAt m c ∈ harmonics.getD m.toNat [] := by
  interval_cases m <;> interval_cases c <;> decide

/-! ## Claim theorems -/

/-- C1 counterexample: with melody pitch 0, the bass pitch 6 — the third
Harmonics Table candidate — is not a possible outcome for any valid random
source, because the source draws `random(0, 2)`, whose result is 0 or 1. -/
theorem C1_third_candidate_unreachable :
    ¬ ∃ randB randD : Nat → Nat → Nat, RandValid randB ∧
      (defineBassNote bassInit 0 1 1 randB randD).pitch = 6 := by
  rintro ⟨randB, randD, hB, hp⟩
  have hc : randB 0 2 = 0 ∨ randB 0 2 = 1 := by
    have := (hB 0 2 (by norm_num)).2
    omega
  simp only [defineBassNote] at hp
  rcases hc with h | h <;> rw [h] at hp <;> revert hp <;> decide

/-- C1 (amended): for every melody pitch, the bass Note Selector picks the
bass pitch uniformly at random from the FIRST TWO of the three candidate
entries of the Harmonics Table row indexed by the melody pitch (the draw is
`random(0, 2)`, exclusive at 2, so column 2 is never used); in particular,
for melody pitch 0 the bass pitch ranges over {2, 4}, each of these two
candidates being a possible outcome. -/
theorem C1_bass_pick_first_two :
    (∀ (prev : note) (m : Int) (ta ts : ℚ) (randB randD : Nat → Nat → Nat),
      RandValid randB →
        (defineBassNote prev m ta ts randB randD).pitch = harmonicsAt m 0 ∨
        (defineBassNote prev m ta ts randB randD).pitch = harmonicsAt m 1) ∧
    (∀ (prev : note) (ta ts : ℚ) (randB randD : Nat → Nat → Nat),
      RandValid randB →
        (defineBassNote prev 0 ta ts randB randD).pitch = 2 ∨
        (defineBassNote prev 0 ta ts randB randD).pitch = 4) ∧
    (∃ randB randD : Nat → Nat → Nat, RandValid randB ∧
      (defineBassNote bassInit 0 1 1 randB randD).pitch = 2) ∧
    (∃ randB randD : Nat → Nat → Nat, RandValid randB ∧
      (defineBassNote bassInit 0 1 1 randB randD).pitch = 4) := by
  refine ⟨?_, ?_, ?_, ?_⟩
  · intro prev m ta ts randB randD hB
    have hc : randB 0 2 = 0 ∨ randB 0 2 = 1 := by
      have := (hB 0 2 (by norm_num)).2
      omega
    simp only [defineBassNote]
    rcases hc with h | h <;> rw [h]
    · exact Or.inl rfl
    · exact Or.inr rfl
  · intro prev ta ts randB randD hB
    have hc : randB 0 2 = 0 ∨ randB 0 2 = 1 := by
      have := (hB 0 2 (by norm_num)).2
      omega
    simp only [defineBassNote]
    rcases hc with h | h <;> rw [h]
    · exact Or.inl (by decide)
    · exact Or.inr (by decide)
  · exact ⟨randLo, randLo, randLo_valid, by decide⟩
  · exact ⟨randHi, randLo, randHi_valid, by decide⟩

/-- C2 counterexample: in the band 0.5 < totalAcc < 0.75 the selector indeed
always lands on table index 18, but the value there is 1000 ms, not 1500 ms:
at totalAcc = 0.6 with a valid random source the returned duration is 1000. -/
theorem C2_index18_is_1000_not_1500 :
    RandValid randLo ∧ defineNoteDuration (3/5) randLo = 1000 ∧
      (1000 : Int) ≠ 1500 := by
  refine ⟨randLo_valid, ?_, by decide⟩
  unfold defineNoteDuration defineNoteDurationIndex randLo
  norm_num
  decide

/-- C2 (amended): for every totalAcc with 0.5 < totalAcc < 0.75, the Duration
Selector always returns the table entry at index 18, whose value is 1000
milliseconds; in particular totalAcc = 0.6 always yields 1000 ms. -/
theorem C2_midband_always_index18 (ta : ℚ) (randD : Nat → Nat → Nat)
    (h1 : 1/2 < ta) (h2 : ta < 3/4) (hD : RandValid randD) :
    defineNoteDurationIndex ta randD = 18 ∧
      defineNoteDuration ta randD = 1000 := by
  have hr := hD 18 19 (by norm_num)
  have hidx : defineNoteDurationIndex ta randD = 18 := by
    unfold defineNoteDurationIndex
    rw [if_pos ⟨h1, h2⟩]
    omega
  refine ⟨hidx, ?_⟩
  unfold defineNoteDuration
  rw [hidx]
  decide

/-- C2 witness: totalAcc = 0.6 lies in the band and yields index 18 and
duration 1000 ms with the lower-bound random source. -/
theorem C2_midband_always_index18_witness :
    (1/2 : ℚ) < 3/5 ∧ (3/5 : ℚ) < 3/4 ∧
    defineNoteDurationIndex (3/5) randLo = 18 ∧
      defineNoteDuration (3/5) randLo = 1000 :=
  ⟨by norm_num, by norm_num,
    (C2_midband_always_index18 (3/5) randLo (by norm_num) (by norm_num)
      randLo_valid).1,
    (C2_midband_always_index18 (3/5) randLo (by norm_num) (by norm_num)
      randLo_valid).2⟩

/-- C3 counterexample: totalAcc = 2 lies in the band 0.75 < totalAcc < 3,
yet with the (valid) lower-bound random source the selector draws index 10
and returns 250 ms, which is neither 500 nor 1000. -/
theorem C3_band_can_return_250 :
    RandValid randLo ∧ defineNoteDuration 2 randLo = 250 ∧
      ¬(defineNoteDuration 2 randLo = 500 ∨
        defineNoteDuration 2 randLo = 1000) := by
  have h : defineNoteDuration 2 randLo = 250 := by
    unfold defineNoteDuration defineNoteDurationIndex randLo
    norm_num
    decide
  refine ⟨randLo_valid, h, ?_⟩
  rw [h]
  decide

/-- C3 (amended): for every totalAcc with 0.75 < totalAcc < 3, the Duration
Selector draws uniformly from table indices [10, 18), and every duration it
can return in this band is 250, 500 or 1000 milliseconds (indices 10 and 11
hold 250 ms); in particular totalAcc = 2.0 always draws from indices
10..17. -/
theorem C3_midband_indices_10_to_17 (ta : ℚ) (randD : Nat → Nat → Nat)
    (h1 : 3/4 < ta) (h2 : ta < 3) (hD : RandValid randD) :
    (10 ≤ defineNoteDurationIndex ta randD ∧
      defineNoteDurationIndex ta randD < 18) ∧
    (defineNoteDuration ta randD = 250 ∨ defineNoteDuration ta randD = 500 ∨
      defineNoteDuration ta randD = 1000) := by
  have hr := hD 10 18 (by norm_num)
  have hidx : defineNoteDurationIndex ta randD = randD 10 18 := by
    unfold defineNoteDurationIndex
    rw [if_neg (by rintro ⟨_, hx⟩; linarith), if_pos ⟨h1, h2⟩]
  obtain ⟨hr1, hr2⟩ := hr
  constructor
  · rw [hidx]; exact ⟨hr1, hr2⟩
  · unfold defineNoteDuration
    rw [hidx]
    interval_cases h : randD 10 18 <;> simp [noteDuration]

/-- C3 witness: totalAcc = 2 lies in the band; with the lower-bound random
source the drawn index is in [10, 18) and the duration is 250, 500 or
1000 ms. -/
theorem C3_midband_indices_10_to_17_witness :
    (3/4 : ℚ) < 2 ∧ (2 : ℚ) < 3 ∧
    ((10 ≤ defineNoteDurationIndex 2 randLo ∧
       defineNoteDurationIndex 2 randLo < 18) ∧
     (defineNoteDuration 2 randLo = 250 ∨ defineNoteDuration 2 randLo = 500 ∨
       defineNoteDuration 2 randLo = 1000)) :=
  ⟨by norm_num, by norm_num,
    C3_midband_indices_10_to_17 2 randLo (by norm_num) (by norm_num)
      randLo_valid⟩

/-- C4: for every totalAcc and every valid random source, the Duration
Selector returns a value in {125, 250, 500, 1000} milliseconds, and the
drawn table index is never 19, so the 1500 ms entry is unreachable. -/
theorem C4_1500ms_unreachable (ta : ℚ) (randD : Nat → Nat → Nat)
    (hD : RandValid randD) :
    (defineNoteDuration ta randD = 125 ∨ defineNoteDuration ta randD = 250 ∨
     defineNoteDuration ta randD = 500 ∨
       defineNoteDuration ta randD = 1000) ∧
    defineNoteDurationIndex ta randD ≠ 19 := by
  unfold defineNoteDuration defineNoteDurationIndex
  split_ifs with hA hB
  · have hr := hD 18 19 (by norm_num)
    have h18 : randD 18 19 = 18 := by omega
    rw [h18]
    exact ⟨by decide, by decide⟩
  · obtain ⟨hr1, hr2⟩ := hD 10 18 (by norm_num)
    constructor
    · interval_cases h : randD 10 18 <;> simp [noteDuration]
    · omega
  · obtain ⟨hr1, hr2⟩ := hD 0 10 (by norm_num)
    constructor
    · interval_cases h : randD 0 10 <;> simp [noteDuration]
    · omega

/-- C4 witness: at totalAcc = 5 with the lower-bound random source the
duration is one of the four values and the index is not 19. -/
theorem C4_1500ms_unreachable_witness :
    (defineNoteDuration 5 randLo = 125 ∨ defineNoteDuration 5 randLo = 250 ∨
     defineNoteDuration 5 randLo = 500 ∨ defineNoteDuration 5 randLo = 1000) ∧
    defineNoteDurationIndex 5 randLo ≠ 19 :=
  C4_1500ms_unreachable 5 randLo randLo_valid

/-- C5: for every previous octave in [0, 5] and every totalAcc/totalSpin,
both Note Selectors keep the octave in [0, 5]; the melody walk wraps
pre-wrap -1 to 5 and pre-wrap 6 to 2, while the bass walk wraps pre-wrap -1
to 2 and pre-wrap 6 to 0, so the two voices' wrap targets differ. -/
theorem C5_octave_walks_stay_in_range :
    (∀ (prev : note) (ta ts : ℚ) (randP randD : Nat → Nat → Nat),
      0 ≤ prev.octave → prev.octave ≤ 5 →
        0 ≤ (defineMelodyNote prev ta ts randP randD).octave ∧
          (defineMelodyNote prev ta ts randP randD).octave ≤ 5) ∧
    (∀ (prev : note) (m : Int) (ta ts : ℚ) (randB randD : Nat → Nat → Nat),
      0 ≤ prev.octave → prev.octave ≤ 5 →
        0 ≤ (defineBassNote prev m ta ts randB randD).octave ∧
          (defineBassNote prev m ta ts randB randD).octave ≤ 5) ∧
    melodyOctaveWrap (-1) = 5 ∧ melodyOctaveWrap 6 = 2 ∧
    bassOctaveWrap (-1) = 2 ∧ bassOctaveWrap 6 = 0 := by
  refine ⟨?_, ?_, by decide, by decide, by decide, by decide⟩
  · intro prev ta ts randP randD h0 h5
    simp only [defineMelodyNote, melodyOctaveWalk, melodyOctaveWrap]
    split_ifs <;> omega
  · intro prev m ta ts randB randD h0 h5
    simp only [defineBassNote, bassOctaveWalk, bassOctaveWrap]
    split_ifs <;> omega

/-- C6: for every previous melody pitch in [0, 7], every totalAcc/totalSpin
and every valid random source, the melody pitch after the walk and the
clamp step (absolute value of a negative pitch, then repeatedly subtracting
3 while above 6) is in [0, 6] before the silence override, and the final
melody pitch after the override is in [0, 7]. -/
theorem C6_pitch_clamp_in_range (prev : note) (ta ts : ℚ)
    (randP randD : Nat → Nat → Nat)
    (hp0 : 0 ≤ prev.pitch) (hp7 : prev.pitch ≤ 7) (hP : RandValid randP) :
    (0 ≤ melodyPitchStep prev.pitch ts (randP 0 6) ∧
      melodyPitchStep prev.pitch ts (randP 0 6) ≤ 6) ∧
    (0 ≤ (defineMelodyNote prev ta ts randP randD).pitch ∧
      (defineMelodyNote prev ta ts randP randD).pitch ≤ 7) := by
  have hstep := melodyPitchStep_range prev.pitch ts (randP 0 6)
  refine ⟨hstep, ?_⟩
  simp only [defineMelodyNote]
  split_ifs
  · omega
  · omega

/-- C6 witness: at previous pitch 0, totalAcc = 1, totalSpin = 1 and the
lower-bound random source, the post-clamp pitch is in [0, 6] and the final
pitch in [0, 7]. -/
theorem C6_pitch_clamp_in_range_witness :
    (0 : Int) ≤ melodyInit.pitch ∧ melodyInit.pitch ≤ 7 ∧
    ((0 ≤ melodyPitchStep melodyInit.pitch 1 (randLo 0 6) ∧
       melodyPitchStep melodyInit.pitch 1 (randLo 0 6) ≤ 6) ∧
     (0 ≤ (defineMelodyNote melodyInit 1 1 randLo randLo).pitch ∧
       (defineMelodyNote melodyInit 1 1 randLo randLo).pitch ≤ 7)) :=
  ⟨by decide, by decide,
    C6_pitch_clamp_in_range melodyInit 1 1 randLo randLo (by decide)
      (by decide) randLo_valid⟩

/-- C7: whenever totalAcc < 0.5 or totalSpin < 0.5, the melody Note Selector
forces the new melody pitch to exactly 7 (the silence symbol), regardless of
the pitch-walk and clamp outcome. -/
theorem C7_silence_override (prev : note) (ta ts : ℚ)
    (randP randD : Nat → Nat → Nat) (h : ta < 1/2 ∨ ts < 1/2) :
    (defineMelodyNote prev ta ts randP randD).pitch = 7 := by
  simp only [defineMelodyNote]
  rw [if_pos h]

/-- C7 witness: totalAcc = 0.2 with totalSpin = 5 always yields melody
pitch 7, here at the initial melody state with the lower-bound source. -/
theorem C7_silence_override_witness :
    ((1/5 : ℚ) < 1/2 ∨ (5 : ℚ) < 1/2) ∧
    (defineMelodyNote melodyInit (1/5) 5 randLo randLo).pitch = 7 :=
  ⟨Or.inl (by norm_num),
    C7_silence_override melodyInit (1/5) 5 randLo randLo
      (Or.inl (by norm_num))⟩

/-- C8: starting from melody state {pitch 0, octave 3} and bass state
{pitch 0, octave 0}, one cycle with totalAcc = 4 and totalSpin = 5 yields,
for every valid random source: melody octave 4, melody pitch equal to 0 plus
a draw in [0, 6), bass octave 1, bass pitch taken from the Harmonics Table
row of the resulting melody pitch, and both voices' durations drawn from
table indices [0, 10). -/
theorem C8_end_to_end_cycle (randMP randMD randB randBD : Nat → Nat → Nat)
    (hMP : RandValid randMP) (hMD : RandValid randMD)
    (hB : RandValid randB) (hBD : RandValid randBD) :
    (playNote melodyInit bassInit 4 5 randMP randMD randB randBD).1.octave
        = 4 ∧
    ((playNote melodyInit bassInit 4 5 randMP randMD randB randBD).1.pitch
        = (randMP 0 6 : Int) ∧ randMP 0 6 < 6) ∧
    (playNote melodyInit bassInit 4 5 randMP randMD randB randBD).2.octave
        = 1 ∧
    (playNote melodyInit bassInit 4 5 randMP randMD randB randBD).2.pitch
      ∈ harmonics.getD
        (playNote melodyInit bassInit 4 5 randMP randMD randB
          randBD).1.pitch.toNat [] ∧
    ((playNote melodyInit bassInit 4 5 randMP randMD randB randBD).1.duration
        = noteDuration.getD (randMD 0 10) 0 ∧ randMD 0 10 < 10) ∧
    ((playNote melodyInit bassInit 4 5 randMP randMD randB randBD).2.duration
        = noteDuration.getD (randBD 0 10) 0 ∧ randBD 0 10 < 10) := by
  have hr6 := (hMP 0 6 (by norm_num)).2
  have hb2 := (hB 0 2 (by norm_num)).2
  have hd1 := (hMD 0 10 (by norm_num)).2
  have hd2 := (hBD 0 10 (by norm_num)).2
  have hmel : defineMelodyNote melodyInit 4 5 randMP randMD =
      { pitch := (randMP 0 6 : Int), octave := 4,
        duration := noteDuration.getD (randMD 0 10) 0 } := by
    unfold defineMelodyNote melodyOctaveWalk melodyOctaveWrap melodyPitchStep
      defineNoteDuration defineNoteDurationIndex melodyInit
    norm_num
    rw [clampHigh_of_le _ (by omega)]
  have hbass : defineBassNote bassInit (randMP 0 6 : Int) 4 5 randB randBD =
      { pitch := harmonicsAt (randMP 0 6 : Int) (randB 0 2), octave := 1,
        duration := noteDuration.getD (randBD 0 10) 0 } := by
    unfold defineBassNote bassOctaveWalk bassOctaveWrap
      defineNoteDuration defineNoteDurationIndex bassInit
    norm_num
  have hplay : playNote melodyInit bassInit 4 5 randMP randMD randB randBD =
      ({ pitch := (randMP 0 6 : Int), octave := 4,
         duration := noteDuration.getD (randMD 0 10) 0 },
       { pitch := harmonicsAt (randMP 0 6 : Int) (randB 0 2), octave := 1,
         duration := noteDuration.getD (randBD 0 10) 0 }) := by
    unfold playNote
    rw [hmel]
    simp only
    rw [hbass]
  rw [hplay]
  refine ⟨rfl, ⟨rfl, hr6⟩, rfl, ?_, ⟨rfl, hd1⟩, ⟨rfl, hd2⟩⟩
  simp only
  exact harmonicsAt_mem (randMP 0 6 : Int) (randB 0 2) (by omega) (by omega)
    (by omega)

/-- C8 witness: the cycle at totalAcc = 4, totalSpin = 5 with the
upper-bound random source satisfies all the stated conjuncts. -/
theorem C8_end_to_end_cycle_witness :
    (playNote melodyInit bassInit 4 5 randHi randHi randHi randHi).1.octave
        = 4 ∧
    ((playNote melodyInit bassInit 4 5 randHi randHi randHi randHi).1.pitch
        = (randHi 0 6 : Int) ∧ randHi 0 6 < 6) ∧
    (playNote melodyInit bassInit 4 5 randHi randHi randHi randHi).2.octave
        = 1 ∧
    (playNote melodyInit bassInit 4 5 randHi randHi randHi randHi).2.pitch
      ∈ harmonics.getD
        (playNote melodyInit bassInit 4 5 randHi randHi randHi
          randHi).1.pitch.toNat [] ∧
    ((playNote melodyInit bassInit 4 5 randHi randHi randHi
        randHi).1.duration
        = noteDuration.getD (randHi 0 10) 0 ∧ randHi 0 10 < 10) ∧
    ((playNote melodyInit bassInit 4 5 randHi randHi randHi
        randHi).2.duration
        = noteDuration.getD (randHi 0 10) 0 ∧ randHi 0 10 < 10) :=
  C8_end_to_end_cycle randHi randHi randHi randHi randHi_valid randHi_valid
    randHi_valid randHi_valid

/-- C9: if the previous melody pitch is 7 (silence) and totalSpin lies in
the no-op band [3, 4] with totalAcc at least 0.5, the melody Note Selector
outputs pitch 4: the while-loop clamp folds the untouched silence pitch
(7 > 6, so 7 - 3 = 4) even though neither pitch-walk branch fired. -/
theorem C9_silence_folds_to_4 (prev : note) (ta ts : ℚ)
    (randP randD : Nat → Nat → Nat) (hp : prev.pitch = 7)
    (h3 : 3 ≤ ts) (h4 : ts ≤ 4) (ha : 1/2 ≤ ta) :
    (defineMelodyNote prev ta ts randP randD).pitch = 4 := by
  simp only [defineMelodyNote, melodyPitchStep, hp]
  rw [if_neg (by rintro (h | h) <;> linarith)]
  rw [if_neg (by linarith : ¬ ts < 3), if_neg (by linarith : ¬ ts > 4),
    if_neg (by norm_num : ¬ (7 : Int) < 0)]
  rw [clampHigh, if_pos (by norm_num)]
  norm_num
  exact clampHigh_of_le 4 (by norm_num)

/-- C9 witness: previous pitch 7, totalAcc = 1, totalSpin = 3 yields melody
pitch 4. -/
theorem C9_silence_folds_to_4_witness :
    (defineMelodyNote { pitch := 7, octave := 3, duration := 0 } 1 3
        randLo randLo).pitch = 4 :=
  C9_silence_folds_to_4 { pitch := 7, octave := 3, duration := 0 } 1 3
    randLo randLo rfl (by norm_num) (by norm_num) (by norm_num)

/-- C10: with the random draws fixed (two sources that agree on every range
the selectors actually draw from), two runs of the melody and bass Note
Selectors with identical totalAcc, totalSpin and identical prior voice
states produce identical new voice states (pitch, octave, duration). -/
theorem C10_fixed_draws_deterministic (mPrev bPrev : note) (ta ts : ℚ)
    (rMP rMD rB rBD rMP' rMD' rB' rBD' : Nat → Nat → Nat)
    (h1 : rMP 0 6 = rMP' 0 6)
    (h2 : rMD 18 19 = rMD' 18 19) (h3 : rMD 10 18 = rMD' 10 18)
    (h4 : rMD 0 10 = rMD' 0 10)
    (h5 : rB 0 2 = rB' 0 2)
    (h6 : rBD 18 19 = rBD' 18 19) (h7 : rBD 10 18 = rBD' 10 18)
    (h8 : rBD 0 10 = rBD' 0 10) :
    playNote mPrev bPrev ta ts rMP rMD rB rBD =
      playNote mPrev bPrev ta ts rMP' rMD' rB' rBD' := by
  simp only [playNote, defineMelodyNote, defineBassNote, defineNoteDuration,
    defineNoteDurationIndex]
  rw [h1, h2, h3, h4, h5, h6, h7, h8]

/-- C10 witness: the lower-bound source and a source that differs from it
only on ranges the selectors never draw from produce the same cycle
output. -/
theorem C10_fixed_draws_deterministic_witness :
    playNote melodyInit bassInit 1 1 randLo randLo randLo randLo =
      playNote melodyInit bassInit 1 1
        (fun a b => if 50 < b then 99 else a)
        (fun a b => if 50 < b then 99 else a)
        (fun a b => if 50 < b then 99 else a)
        (fun a b => if 50 < b then 99 else a) :=
  C10_fixed_draws_deterministic melodyInit bassInit 1 1
    randLo randLo randLo randLo _ _ _ _
    (by norm_num [randLo]) (by norm_num [randLo]) (by norm_num [randLo])
    (by norm_num [randLo]) (by norm_num [randLo]) (by norm_num [randLo])
    (by norm_num [randLo]) (by norm_num [randLo])
